import Mathlib

/-! Verification of the visibility, search, notification and stats-update
logic of the footstep management-portal application.

The definitions below are a shallow embedding of the TypeScript source:

- string operations used by the code (toLowerCase, trim, includes) are embedded
  as computable functions over the character list of a string;
- the data model mirrors src/types.ts (the part_005 source file);
- the visibility resolvers, global search, stats-update handler, complete-task
  handler and notification clearing mirror src/App.tsx;
- the guest room filter mirrors the rooms computation of the ClientPortal
  component (the part_007 source file);
- the namespace P0 embeds the variant application in the part_000 source file
  (ADMIN/MANAGER/CLIENT roles, success-checked stats handler, and the
  incomplete-profile render guard for clients without a project).

Asynchronous provider calls are embedded by passing the provider result
(a boolean success flag, mirroring the return type of saveProjectStats) as an
explicit argument to the handler.
-/

namespace Footstep

/-- Embedding of the JavaScript toLowerCase operation, character by character. -/
def toLowerStr (s : String) : String :=
  ⟨s.data.map Char.toLower⟩

/-- Embedding of the JavaScript trim operation: drop whitespace at both ends. -/
def trimStr (s : String) : String :=
  ⟨((s.data.dropWhile Char.isWhitespace).reverse.dropWhile Char.isWhitespace).reverse⟩

/-- Character-list test used to embed the JavaScript includes operation. -/
def isPrefixChars : List Char → List Char → Bool
  | [], _ => true
  | _ :: _, [] => false
  | a :: as, b :: bs => a == b && isPrefixChars as bs

/-- Character-list substring test: the needle occurs somewhere in the haystack. -/
def isInfixChars (n : List Char) : List Char → Bool
  | [] => n.isEmpty
  | c :: t => isPrefixChars n (c :: t) || isInfixChars n t

/-- Embedding of the JavaScript includes operation on strings. -/
def strIncludes (s q : String) : Bool :=
  isInfixChars q.data s.data

/-- Embedding of the JavaScript Array.findIndex operation; none plays the role
of the -1 result. -/
def findIndexJS (p : α → Bool) : List α → Option Nat
  | [] => none
  | a :: t => if p a then some 0 else (findIndexJS p t).map (· + 1)

/-- Embedding of the JavaScript or-else fallback on a possibly-undefined
string: null, undefined and the empty string are all falsy and select the
fallback value. -/
def jsOrElse (d : Option String) (dflt : String) : String :=
  match d with
  | none => dflt
  | some s => if s == "" then dflt else s

/-- Roles from src/types.ts. -/
inductive UserRole
  | OWNER
  | MANAGER
  | CLIENT
  deriving Repr, DecidableEq

/-- Client sub-roles from src/types.ts. -/
inductive ClientRole
  | TEAMLEADER
  | USER
  | GUEST
  deriving Repr, DecidableEq

/-- The User record from src/types.ts; optional fields become Option. -/
structure User where
  id : String
  name : String
  role : UserRole
  clientRole : Option ClientRole
  avatar : String
  email : String
  password : Option String
  projectId : Option String
  assignedProjects : Option (List String)
  phone : Option String
  availability : Option String
  bio : Option String
  lastSeen : Option String
  personalNotes : Option String
  allowedChannels : Option (List String)
  deriving Repr, DecidableEq

/-- Subtask record from src/types.ts. -/
structure SubTask where
  id : String
  title : String
  isCompleted : Bool
  deriving Repr, DecidableEq

/-- Task status union from src/types.ts. -/
inductive TaskStatus
  | TODO
  | IN_PROGRESS
  | DONE
  deriving Repr, DecidableEq

/-- The Task record from src/types.ts. -/
structure Task where
  id : String
  title : String
  description : Option String
  status : TaskStatus
  assigneeId : String
  projectId : String
  dueDate : Option String
  subtasks : List SubTask
  deriving Repr, DecidableEq

/-- Event type union from src/types.ts. -/
inductive EventType
  | GIG
  | STUDIO
  | MEETING
  | RELEASE
  | PR
  | DEADLINE
  | OTHER
  deriving Repr, DecidableEq

/-- The CalendarEvent record from src/types.ts. -/
structure CalendarEvent where
  id : String
  title : String
  description : Option String
  startDate : String
  startTime : Option String
  endDate : Option String
  type : EventType
  projectId : String
  location : Option String
  attendees : Option (List String)
  deriving Repr, DecidableEq

/-- File kind union from src/types.ts. -/
inductive FileType
  | image
  | audio
  | video
  | document
  | other
  deriving Repr, DecidableEq

/-- The AppFile record from src/types.ts. -/
structure AppFile where
  id : String
  name : String
  type : FileType
  url : String
  size : String
  uploadedBy : String
  projectId : String
  createdAt : String
  deriving Repr, DecidableEq

/-- The ChatMessage record from src/types.ts. -/
structure ChatMessage where
  id : String
  userId : String
  userName : String
  content : String
  timestamp : String
  room : String
  projectId : String
  attachment : Option AppFile
  deriving Repr, DecidableEq

/-- Client portal channel record from src/types.ts. -/
structure ClientChannel where
  id : String
  name : String
  projectId : String
  icon : Option String
  deriving Repr, DecidableEq

/-- Media mention record from src/types.ts. -/
structure MediaMention where
  id : String
  source : String
  title : String
  url : String
  date : String
  deriving Repr, DecidableEq

/-- One streams series entry of ProjectStats. -/
structure StreamEntry where
  date : String
  value : Int
  deriving Repr, DecidableEq

/-- One revenue series entry of ProjectStats, keyed by month. -/
structure RevenueEntry where
  month : String
  value : Int
  deriving Repr, DecidableEq

/-- One followers series entry of ProjectStats, keyed by platform. -/
structure FollowerEntry where
  platform : String
  count : Int
  deriving Repr, DecidableEq

/-- The ProjectStats record from src/types.ts. -/
structure ProjectStats where
  projectId : String
  projectName : String
  streams : List StreamEntry
  revenue : List RevenueEntry
  followers : List FollowerEntry
  mentions : List MediaMention
  deriving Repr, DecidableEq

/-- The Project record from src/types.ts. -/
structure Project where
  id : String
  name : String
  members : List String
  deriving Repr, DecidableEq

/-- Notification type union from src/types.ts. -/
inductive NotifType
  | MESSAGE
  | TASK
  | SYSTEM
  deriving Repr, DecidableEq

/-- The AppNotification record from src/types.ts. -/
structure AppNotification where
  id : String
  type : NotifType
  title : String
  message : String
  timestamp : String
  linkTo : Option String
  deriving Repr, DecidableEq

/-- Search result type tag from src/types.ts. -/
inductive SRType
  | PROJECT
  | TASK
  | FILE
  | MESSAGE
  | EVENT
  deriving Repr, DecidableEq

/-- The entity stored in the data field of a search result; src/types.ts types
it as any and the search code stores the original matched entity there. -/
inductive SearchData
  | project (p : Project)
  | task (t : Task)
  | file (f : AppFile)
  | message (m : ChatMessage)
  | event (e : CalendarEvent)
  deriving Repr, DecidableEq

/-- The SearchResult record from src/types.ts. -/
structure SearchResult where
  id : String
  type : SRType
  title : String
  subtitle : String
  data : SearchData
  linkTo : Option String
  deriving Repr, DecidableEq

/-- The rooms computation of the ClientPortal component (part_007, lines 60 to
66): all client channels of the shown project, restricted to the allow-list
when the viewer is a guest whose allowedChannels field is defined. -/
def rooms (currentUser : User) (project : Project) (clientChannels : List ClientChannel) :
    List ClientChannel :=
  let allProjectRooms := clientChannels.filter (fun c => c.projectId == project.id)
  let isGuest := currentUser.clientRole == some ClientRole.GUEST
  if isGuest && currentUser.allowedChannels.isSome then
    allProjectRooms.filter (fun c => (currentUser.allowedChannels.getD []).contains c.id)
  else
    allProjectRooms

/-- The visibleProjects memo of src/App.tsx (lines 624 to 631). -/
def visibleProjects (currentUser : Option User) (projects : List Project) : List Project :=
  match currentUser with
  | none => []
  | some u =>
    if u.role == UserRole.OWNER then projects
    else if u.role == UserRole.MANAGER then
      projects.filter (fun p =>
        match u.assignedProjects with
        | some ap => ap.contains p.id
        | none => false)
    else []

/-- The visibleProjectIds memo of src/App.tsx (line 633). -/
def visibleProjectIds (currentUser : Option User) (projects : List Project) : List String :=
  (visibleProjects currentUser projects).map (fun p => p.id)

/-- The visibleTasks memo of src/App.tsx (lines 650 to 652). -/
def visibleTasks (currentUser : Option User) (projects : List Project) (tasks : List Task) :
    List Task :=
  tasks.filter (fun t =>
    t.projectId == "internal" || (visibleProjectIds currentUser projects).contains t.projectId)

/-- The visibleFiles memo of src/App.tsx (lines 654 to 656). -/
def visibleFiles (currentUser : Option User) (projects : List Project) (files : List AppFile) :
    List AppFile :=
  files.filter (fun f =>
    f.projectId == "internal" || (visibleProjectIds currentUser projects).contains f.projectId)

/-- The visibleEvents memo of src/App.tsx (lines 658 to 660). -/
def visibleEvents (currentUser : Option User) (projects : List Project)
    (events : List CalendarEvent) : List CalendarEvent :=
  events.filter (fun e =>
    e.projectId == "internal" || (visibleProjectIds currentUser projects).contains e.projectId)

/-- Rendering of a task status as the string interpolated into a search result
subtitle. -/
def statusText : TaskStatus → String
  | TaskStatus.TODO => "TODO"
  | TaskStatus.IN_PROGRESS => "IN_PROGRESS"
  | TaskStatus.DONE => "DONE"

/-- Rendering of a file type through toUpperCase, as in the search code. -/
def fileTypeUpper : FileType → String
  | FileType.image => "IMAGE"
  | FileType.audio => "AUDIO"
  | FileType.video => "VIDEO"
  | FileType.document => "DOCUMENT"
  | FileType.other => "OTHER"

/-- Project block of handleGlobalSearch (src/App.tsx lines 673 to 679): only
owners and managers collect project-name matches, over visibleProjects. -/
def projectResults (u : User) (projects : List Project) (q : String) : List SearchResult :=
  if u.role == UserRole.OWNER || u.role == UserRole.MANAGER then
    (visibleProjects (some u) projects).filterMap (fun p =>
      if strIncludes (toLowerStr p.name) q then
        some { id := p.id, type := SRType.PROJECT, title := p.name, subtitle := "Projekt",
               data := SearchData.project p, linkTo := some p.id }
      else none)
  else []

/-- Task candidate set of handleGlobalSearch (src/App.tsx lines 681 to 683). -/
def tasksToSearch (u : User) (projects : List Project) (tasks : List Task) : List Task :=
  if u.role == UserRole.CLIENT then
    tasks.filter (fun t => u.projectId == some t.projectId)
  else
    visibleTasks (some u) projects tasks

/-- Task block of handleGlobalSearch (src/App.tsx lines 685 to 689). -/
def taskResults (u : User) (projects : List Project) (tasks : List Task) (q : String) :
    List SearchResult :=
  (tasksToSearch u projects tasks).filterMap (fun t =>
    if strIncludes (toLowerStr t.title) q then
      some { id := t.id, type := SRType.TASK, title := t.title,
             subtitle := "Status: " ++ statusText t.status,
             data := SearchData.task t, linkTo := some t.projectId }
    else none)

/-- File candidate set of handleGlobalSearch (src/App.tsx lines 691 to 693). -/
def filesToSearch (u : User) (projects : List Project) (files : List AppFile) : List AppFile :=
  if u.role == UserRole.CLIENT then
    files.filter (fun f => u.projectId == some f.projectId)
  else
    visibleFiles (some u) projects files

/-- File block of handleGlobalSearch (src/App.tsx lines 695 to 699). -/
def fileResults (u : User) (projects : List Project) (files : List AppFile) (q : String) :
    List SearchResult :=
  (filesToSearch u projects files).filterMap (fun f =>
    if strIncludes (toLowerStr f.name) q then
      some { id := f.id, type := SRType.FILE, title := f.name, subtitle := fileTypeUpper f.type,
             data := SearchData.file f, linkTo := none }
    else none)

/-- Message candidate set of handleGlobalSearch (src/App.tsx lines 701 to 709):
clients search their own project, guests with a defined allow-list are further
restricted to allowed rooms, staff search internal plus visible projects. -/
def msgsToSearch (u : User) (projects : List Project) (messages : List ChatMessage) :
    List ChatMessage :=
  if u.role == UserRole.CLIENT then
    let base := messages.filter (fun m => u.projectId == some m.projectId)
    if (u.clientRole == some ClientRole.GUEST) && u.allowedChannels.isSome then
      base.filter (fun m => (u.allowedChannels.getD []).contains m.room)
    else base
  else
    messages.filter (fun m =>
      m.projectId == "internal" || (visibleProjectIds (some u) projects).contains m.projectId)

/-- Message block of handleGlobalSearch (src/App.tsx lines 711 to 715). -/
def messageResults (u : User) (projects : List Project) (messages : List ChatMessage)
    (q : String) : List SearchResult :=
  (msgsToSearch u projects messages).filterMap (fun m =>
    if strIncludes (toLowerStr m.content) q then
      some { id := m.id, type := SRType.MESSAGE, title := m.userName, subtitle := m.content,
             data := SearchData.message m, linkTo := some m.room }
    else none)

/-- Event candidate set of handleGlobalSearch (src/App.tsx lines 717 to 719). -/
def eventsToSearch (u : User) (projects : List Project) (events : List CalendarEvent) :
    List CalendarEvent :=
  if u.role == UserRole.CLIENT then
    events.filter (fun e => u.projectId == some e.projectId)
  else
    visibleEvents (some u) projects events

/-- Event block of handleGlobalSearch (src/App.tsx lines 721 to 725). -/
def eventResults (u : User) (projects : List Project) (events : List CalendarEvent) (q : String) :
    List SearchResult :=
  (eventsToSearch u projects events).filterMap (fun e =>
    if strIncludes (toLowerStr e.title) q then
      some { id := e.id, type := SRType.EVENT, title := e.title, subtitle := e.startDate,
             data := SearchData.event e, linkTo := none }
    else none)

/-- handleGlobalSearch of src/App.tsx (lines 663 to 728): empty for a blank
query or no session, otherwise the five result blocks in push order, capped by
slice(0, 10). -/
def handleGlobalSearch (currentUser : Option User) (projects : List Project) (tasks : List Task)
    (files : List AppFile) (messages : List ChatMessage) (events : List CalendarEvent)
    (query : String) : List SearchResult :=
  match currentUser with
  | none => []
  | some u =>
    if trimStr query == "" then []
    else
      let q := toLowerStr query
      (projectResults u projects q ++ taskResults u projects tasks q ++
        fileResults u projects files q ++ messageResults u projects messages q ++
        eventResults u projects events q).take 10

/-- The revenue branch of handleUpdateStats (src/App.tsx lines 752 to 757):
replace the value of the entry with a matching month, or append a new entry
whose month is the or-else fallback of the label (so an undefined or
empty-string label appends the month Unknown). -/
def revUpsert (l : List RevenueEntry) (d : Option String) (v : Int) : List RevenueEntry :=
  if (l.find? (fun r => d == some r.month)).isSome then
    l.map (fun r => if d == some r.month then { r with value := v } else r)
  else
    l ++ [{ month := jsOrElse d ("Unknown"), value := v }]

/-- The streams branch of handleUpdateStats (src/App.tsx lines 758 to 763). -/
def streamUpsert (l : List StreamEntry) (d : Option String) (v : Int) : List StreamEntry :=
  if (l.find? (fun st => d == some st.date)).isSome then
    l.map (fun st => if d == some st.date then { st with value := v } else st)
  else
    l ++ [{ date := jsOrElse d ("Unknown"), value := v }]

/-- The followers branch of handleUpdateStats (src/App.tsx lines 764 to 769). -/
def followerUpsert (l : List FollowerEntry) (d : Option String) (v : Int) : List FollowerEntry :=
  if (l.find? (fun f => d == some f.platform)).isSome then
    l.map (fun f => if d == some f.platform then { f with count := v } else f)
  else
    l ++ [{ platform := jsOrElse d ("Unknown"), count := v }]

/-- The metric type argument of handleUpdateStats. -/
inductive StatMetric
  | revenue
  | streams
  | followers
  deriving Repr, DecidableEq

/-- Application of one metric update to a stats record, mirroring the
else-if chain of handleUpdateStats (src/App.tsx lines 751 to 769). -/
def applyMetric (st : ProjectStats) (ty : StatMetric) (v : Int) (d : Option String) :
    ProjectStats :=
  match ty with
  | StatMetric.revenue => { st with revenue := revUpsert st.revenue d v }
  | StatMetric.streams => { st with streams := streamUpsert st.streams d v }
  | StatMetric.followers => { st with followers := followerUpsert st.followers d v }

/-- The fresh stats record built by handleUpdateStats when no record for the
project exists (src/App.tsx lines 737 to 746); the project name falls back to
Unknown through the or-else fallback, also when the found name is empty. -/
def freshStats (projects : List Project) (projectId : String) : ProjectStats :=
  { projectId := projectId,
    projectName := jsOrElse
      ((projects.find? (fun p => p.id == projectId)).map (fun p => p.name)) ("Unknown"),
    streams := [], revenue := [], followers := [], mentions := [] }

/-- The setStats update of handleUpdateStats (src/App.tsx lines 734 to 777):
locate the first record for the project with findIndex, update it in place, or
append the freshly created record. -/
def upsertStatsList (projects : List Project) (stats : List ProjectStats) (projectId : String)
    (ty : StatMetric) (v : Int) (d : Option String) : List ProjectStats :=
  match findIndexJS (fun s => s.projectId == projectId) stats with
  | none => stats ++ [applyMetric (freshStats projects projectId) ty v d]
  | some i => stats.set i (applyMetric (stats.getD i (freshStats projects projectId)) ty v d)

/-- handleUpdateStats of src/App.tsx (lines 730 to 783). The last argument is
the value returned by the awaited saveProjectStats call; the source updates
local state before that call and never reads the result. -/
def handleUpdateStats (currentUser : Option User) (projects : List Project)
    (stats : List ProjectStats) (projectId : String) (ty : StatMetric) (v : Int)
    (d : Option String) (saveOk : Bool) : List ProjectStats :=
  match currentUser with
  | none => stats
  | some u =>
    if u.role == UserRole.OWNER || u.role == UserRole.MANAGER then
      upsertStatsList projects stats projectId ty v d
    else stats

/-- handleCompleteTask of src/App.tsx (line 808): mark the task with the given
id as DONE; the source performs no role or assignee check. -/
def handleCompleteTask (tasks : List Task) (taskId : String) : List Task :=
  tasks.map (fun t => if t.id == taskId then { t with status := TaskStatus.DONE } else t)

/-- handleClearChannelNotifications of src/App.tsx (lines 602 to 604). -/
def handleClearChannelNotifications (notifications : List AppNotification) (linkTo : String) :
    List AppNotification :=
  notifications.filter (fun n => n.linkTo != some linkTo)

/-- The project lookup that src/App.tsx passes to the ClientPortal (line 984);
the source applies a non-null assertion to this value. -/
def clientPortalProject (u : User) (projects : List Project) : Option Project :=
  projects.find? (fun p => u.projectId == some p.id)

/-- The views the root component of src/App.tsx can render. The portal view
carries the unchecked project lookup result: the ClientPortal component reads
project.id immediately (part_007 line 61), so a portal carrying none stands for
a dereference of an absent project. -/
inductive AppView
  | auth
  | dashboard
  | adminPortal (project : Project)
  | portal (project : Option Project)
  deriving Repr, DecidableEq

/-- The render branching of src/App.tsx (lines 908 to 1006); there is no guard
for a client without a resolvable project. -/
def renderApp (currentUser : Option User) (adminViewProject : Option Project)
    (projects : List Project) : AppView :=
  match currentUser with
  | none => AppView.auth
  | some u =>
    if u.role == UserRole.OWNER || u.role == UserRole.MANAGER then
      match adminViewProject with
      | some p => AppView.adminPortal p
      | none => AppView.dashboard
    else
      AppView.portal (clientPortalProject u projects)

end Footstep

namespace P0

/-- Roles of the part_000 variant. -/
inductive UserRole
  | ADMIN
  | MANAGER
  | CLIENT
  deriving Repr, DecidableEq

/-- Client sub-roles of the part_000 variant. -/
inductive ClientRole
  | PRIMARY
  | GUEST
  deriving Repr, DecidableEq

/-- The User record of the part_000 variant. -/
structure User where
  id : String
  email : String
  name : String
  role : UserRole
  clientRole : ClientRole
  projectId : Option String
  avatar : String
  deriving Repr, DecidableEq

/-- The Project record of the part_000 variant. -/
structure Project where
  id : String
  name : String
  clientIds : List String
  deriving Repr, DecidableEq

/-- One series entry of the part_000 ProjectStats record. -/
structure SeriesEntry where
  date : String
  value : Int
  deriving Repr, DecidableEq

/-- The ProjectStats record of the part_000 variant. -/
structure ProjectStats where
  projectId : String
  projectName : String
  streams : List SeriesEntry
  revenue : List SeriesEntry
  followers : List SeriesEntry
  mentions : List SeriesEntry
  deriving Repr, DecidableEq

/-- handleUpdateStats of part_000 (line 534): the whole record is saved first
and folded into local state only when saveProjectStats reports success. The
first argument is the provider result. -/
def handleUpdateStats (saveOk : Bool) (stats : List ProjectStats) (newStats : ProjectStats) :
    List ProjectStats :=
  if saveOk then
    match Footstep.findIndexJS (fun s => s.projectId == newStats.projectId) stats with
    | some idx => stats.mapIdx (fun i s => if i == idx then newStats else s)
    | none => stats ++ [newStats]
  else stats

/-- Truthiness of an optional string, as tested by the part_000 render guard. -/
def strFalsy : Option String → Bool
  | none => true
  | some s => s == ""

/-- The views the part_000 root component can render. -/
inductive Render
  | incompleteProfile
  | dashboard
  | portal (project : Option Project)
  deriving Repr, DecidableEq

/-- The render branching of part_000 (lines 558 to 641): a client without a
project id gets the explicit incomplete-profile view, and otherwise the client
portal receives the optional result of a safe project lookup. -/
def renderApp (currentUser : User) (projects : List Project) : Render :=
  if currentUser.role == UserRole.CLIENT && strFalsy currentUser.projectId then
    Render.incompleteProfile
  else if currentUser.role == UserRole.ADMIN || currentUser.role == UserRole.MANAGER then
    Render.dashboard
  else
    Render.portal (projects.find? (fun p => some p.id == currentUser.projectId))

end P0

namespace Footstep

/-- Sample guest client used to instantiate theorems at concrete inputs. -/
def guestUser : User :=
  { id := "g1", name := "Gia", role := UserRole.CLIENT, clientRole := some ClientRole.GUEST,
    avatar := "", email := "g@x.se", password := none, projectId := some ("p1"),
    assignedProjects := none, phone := none, availability := none, bio := none,
    lastSeen := none, personalNotes := none, allowedChannels := some ["room-a"] }

/-- Sample guest client whose allowedChannels field is undefined. -/
def guestNoList : User :=
  { guestUser with id := "g2", allowedChannels := none }

/-- Sample manager used to instantiate theorems at concrete inputs. -/
def managerUser : User :=
  { guestUser with
    id := "m1", name := "Filip", role := UserRole.MANAGER, clientRole := none
    projectId := none, assignedProjects := some ["p1"], allowedChannels := none }

/-- Sample owner used to instantiate theorems at concrete inputs. -/
def ownerUser : User :=
  { guestUser with
    id := "o1", name := "Aleks", role := UserRole.OWNER, clientRole := none
    projectId := none, assignedProjects := none, allowedChannels := none }

/-- Sample non-guest client used to instantiate theorems at concrete inputs. -/
def clientUser : User :=
  { guestUser with
    id := "c9", name := "Cleo", clientRole := some ClientRole.USER
    allowedChannels := none }

/-- Sample project used to instantiate theorems at concrete inputs. -/
def projectA : Project := { id := "p1", name := "Alpha Launch", members := [] }

/-- Sample second project used to instantiate theorems at concrete inputs. -/
def projectB : Project := { id := "p2", name := "Beta", members := [] }

/-- Sample channel inside the allow-list of guestUser. -/
def chanA : ClientChannel := { id := "room-a", name := "General", projectId := "p1", icon := none }

/-- Sample channel of the same project outside the allow-list of guestUser. -/
def chanB : ClientChannel := { id := "room-b", name := "Promo", projectId := "p1", icon := none }

/-- Sample channel of another project. -/
def chanC : ClientChannel := { id := "room-c", name := "Other", projectId := "p2", icon := none }

/-- Sample task assigned to somebody other than clientUser. -/
def taskOther : Task :=
  { id := "t1", title := "Mix the single", description := none, status := TaskStatus.TODO,
    assigneeId := "someone-else", projectId := "p1", dueDate := none, subtasks := [] }

/-- Sample notification pointing at the room-a channel. -/
def notifA : AppNotification :=
  { id := "n1", type := NotifType.MESSAGE, title := "New message", message := "hello",
    timestamp := "2025-01-01", linkTo := some ("room-a") }

/-- Sample notification pointing at the room-b channel. -/
def notifB : AppNotification :=
  { notifA with id := "n2", linkTo := some ("room-b") }

/-- Sample client without a project assignment, as in the C7 scenario. -/
def noProjectClient : User :=
  { clientUser with id := "c0", projectId := none }

/-- Sample part_000 client without a project assignment. -/
def p0NoProjectClient : P0.User :=
  { id := "c0", email := "c@x.se", name := "Nils", role := P0.UserRole.CLIENT,
    clientRole := P0.ClientRole.PRIMARY, projectId := none, avatar := "" }

/-- Sample stats record for projectA with empty series (so in particular with
no duplicate revenue labels). -/
def statsP1 : ProjectStats :=
  { projectId := "p1", projectName := "Alpha Launch", streams := [], revenue := [],
    followers := [], mentions := [] }

/-- The stats record the update handler starts from for a given project: the
first record with that project id, or the fresh record when none exists. -/
def statsBase (projects : List Project) (stats : List ProjectStats) (projectId : String) :
    ProjectStats :=
  (stats.find? (fun s => s.projectId == projectId)).getD (freshStats projects projectId)

/-- C1: for a CLIENT with sub-role GUEST (whose allow-list is defined, so that
the allowed-channels set exists), every channel the ClientPortal computes as
visible belongs to the channel collection, lies in the project assigned to the
identity, and is in the allowed-channels set: the visible rooms are contained
in the intersection of the project channels and the allow-list. -/
theorem guest_rooms_subset_allowed (u : User) (project : Project)
    (clientChannels : List ClientChannel) (ac : List String)
    (hrole : u.role = UserRole.CLIENT)
    (hguest : u.clientRole = some ClientRole.GUEST)
    (hac : u.allowedChannels = some ac)
    (hproj : u.projectId = some project.id) :
    ∀ c ∈ rooms u project clientChannels,
      c ∈ clientChannels ∧ c.projectId = project.id ∧ c.id ∈ ac := by
  intro c hc
  simp only [rooms, hguest, hac, Option.isSome_some, Bool.and_true, beq_self_eq_true,
    if_pos, Option.getD_some] at hc
  simp only [List.mem_filter, beq_iff_eq, List.elem_eq_mem, decide_eq_true_eq] at hc
  exact ⟨hc.1.1, hc.1.2, hc.2⟩

/-- Witness for C1 at a concrete guest, project and channel collection. -/
theorem guest_rooms_subset_allowed_witness :
    chanA ∈ [chanA, chanB, chanC] ∧ chanA.projectId = projectA.id ∧ chanA.id ∈ ["room-a"] :=
  guest_rooms_subset_allowed guestUser projectA [chanA, chanB, chanC] ["room-a"]
    rfl rfl rfl rfl chanA (by decide)

/-- C2: every project computed as visible for a MANAGER has its id in the
assigned-projects set of the identity (which in particular must be defined). -/
theorem manager_visibleProjects_assigned (u : User) (projects : List Project)
    (hrole : u.role = UserRole.MANAGER) :
    ∀ p ∈ visibleProjects (some u) projects,
      ∃ ap, u.assignedProjects = some ap ∧ p.id ∈ ap := by
  intro p hp
  simp only [visibleProjects, hrole] at hp
  rw [if_neg (by decide), if_pos (by decide)] at hp
  cases hap : u.assignedProjects with
  | none => simp [hap] at hp
  | some ap =>
    simp only [hap, List.mem_filter, List.elem_eq_mem, decide_eq_true_eq] at hp
    exact ⟨ap, rfl, hp.2⟩

/-- Witness for C2 at a concrete manager and project list. -/
theorem manager_visibleProjects_assigned_witness :
    ∃ ap, managerUser.assignedProjects = some ap ∧ projectA.id ∈ ap :=
  manager_visibleProjects_assigned managerUser [projectA, projectB] rfl projectA (by decide)

/-- C8: after clearing the notifications of a channel, no remaining
notification links to that channel, and every notification linking elsewhere
is still present with unchanged multiplicity. -/
theorem clearChannelNotifications_spec (notifs : List AppNotification) (cid : String) :
    (∀ n ∈ handleClearChannelNotifications notifs cid, n.linkTo ≠ some cid) ∧
    (∀ n : AppNotification, n.linkTo ≠ some cid →
      (handleClearChannelNotifications notifs cid).count n = notifs.count n) := by
  constructor
  · intro n hn
    simp only [handleClearChannelNotifications, List.mem_filter, bne_iff_ne, ne_eq] at hn
    exact hn.2
  · intro n hn
    exact List.count_filter (by simpa using hn)

/-- Witness for C8 at a concrete notification list and channel. -/
theorem clearChannelNotifications_spec_witness :
    (handleClearChannelNotifications [notifA, notifB] "room-a").count notifB =
      ([notifA, notifB] : List AppNotification).count notifB :=
  (clearChannelNotifications_spec [notifA, notifB] "room-a").2 notifB (by decide)

/-- C9: the global search returns the empty list when the query trims to the
empty string, and the returned list never holds more than 10 results. -/
theorem search_blank_empty_and_capped (currentUser : Option User) (projects : List Project)
    (tasks : List Task) (files : List AppFile) (messages : List ChatMessage)
    (events : List CalendarEvent) (query : String) :
    (trimStr query = "" →
      handleGlobalSearch currentUser projects tasks files messages events query = []) ∧
    (handleGlobalSearch currentUser projects tasks files messages events query).length ≤ 10 := by
  constructor
  · intro h
    cases currentUser with
    | none => rfl
    | some u => simp [handleGlobalSearch, h]
  · cases currentUser with
    | none => simp [handleGlobalSearch]
    | some u =>
      simp only [handleGlobalSearch]
      split
      · simp
      · exact List.length_take_le 10 _

/-- Witness for C9: a whitespace-only query yields no results, and the cap
holds at a concrete store. -/
theorem search_blank_empty_and_capped_witness :
    handleGlobalSearch (some ownerUser) [projectA] [taskOther] [] [] [] "   " = [] ∧
    (handleGlobalSearch (some ownerUser) [projectA] [taskOther] [] [] [] "a").length ≤ 10 :=
  ⟨(search_blank_empty_and_capped (some ownerUser) [projectA] [taskOther] [] [] [] "   ").1
      (by decide),
    (search_blank_empty_and_capped (some ownerUser) [projectA] [taskOther] [] [] [] "a").2⟩

/-- C10: for a guest whose allowedChannels field is undefined, the ClientPortal
room computation returns all channels of the project unfiltered, and the
client message search candidates are filtered by project only, with the guest
allow-list restriction skipped. -/
theorem guest_undefined_allowlist_unfiltered (u : User) (project : Project)
    (clientChannels : List ClientChannel) (projects : List Project)
    (messages : List ChatMessage)
    (hguest : u.clientRole = some ClientRole.GUEST)
    (hac : u.allowedChannels = none) :
    rooms u project clientChannels = clientChannels.filter (fun c => c.projectId == project.id) ∧
    (u.role = UserRole.CLIENT →
      msgsToSearch u projects messages =
        messages.filter (fun m => u.projectId == some m.projectId)) := by
  constructor
  · simp [rooms, hac]
  · intro hrole
    simp [msgsToSearch, hrole, hac]

/-- Witness for C10 at a concrete guest without an allow-list. -/
theorem guest_undefined_allowlist_unfiltered_witness :
    rooms guestNoList projectA [chanA, chanB, chanC] =
      List.filter (fun c => c.projectId == projectA.id) [chanA, chanB, chanC] :=
  (guest_undefined_allowlist_unfiltered guestNoList projectA [chanA, chanB, chanC] [] []
    rfl rfl).1

/-- Counterexample to C5: the stats-update handler of src/App.tsx mutates the
local stats collection even when the awaited saveProjectStats call reports
failure (the final argument false), because the setStats call precedes the
provider call and its result is never read. -/
theorem updateStats_saveFailure_mutates_cex :
    handleUpdateStats (some ownerUser) [] [] "p1" StatMetric.revenue 5 (some ("Jan")) false ≠
      [] := by
  decide

/-- C5 as amended: in the part_000 variant a failed saveProjectStats call
leaves the stats collection untouched, while the src/App.tsx stats-update
handler produces the same local state whether the provider call fails or
succeeds (the mutation is applied unconditionally). -/
theorem statsHandler_failure_semantics :
    (∀ (stats : List P0.ProjectStats) (newStats : P0.ProjectStats),
        P0.handleUpdateStats false stats newStats = stats) ∧
    (∀ (currentUser : Option User) (projects : List Project) (stats : List ProjectStats)
        (projectId : String) (ty : StatMetric) (v : Int) (d : Option String),
        handleUpdateStats currentUser projects stats projectId ty v d false =
          handleUpdateStats currentUser projects stats projectId ty v d true) :=
  ⟨fun _ _ => rfl, fun _ _ _ _ _ _ _ => rfl⟩

/-- Counterexample to C6: a CLIENT invoking the complete-task handler on a task
assigned to somebody else still changes the task collection, because the
handler of src/App.tsx checks neither role nor assignee. -/
theorem completeTask_ignores_assignee_cex :
    clientUser.role = UserRole.CLIENT ∧ taskOther.assigneeId ≠ clientUser.id ∧
      handleCompleteTask [taskOther] taskOther.id ≠ [taskOther] := by
  decide

/-- C6 as amended: the complete-task handler applies the completion
unconditionally: every task carrying the given id appears in the result with
status DONE, whatever its assignee and whoever invokes the handler, while
tasks with any other id keep their multiplicity unchanged. -/
theorem completeTask_unconditional_done (tasks : List Task) (taskId : String) :
    (∀ t ∈ tasks, t.id = taskId →
      { t with status := TaskStatus.DONE } ∈ handleCompleteTask tasks taskId) ∧
    (∀ t : Task, t.id ≠ taskId →
      (handleCompleteTask tasks taskId).count t = tasks.count t) := by
  constructor
  · intro t ht hid
    simp only [handleCompleteTask, List.mem_map]
    exact ⟨t, ht, by simp [hid]⟩
  · intro t ht
    induction tasks with
    | nil => rfl
    | cons a l ih =>
      have key : ∀ b : Task, b.id = taskId → t ≠ b ∧
          t ≠ ({ b with status := TaskStatus.DONE } : Task) := by
        intro b hb
        constructor
        · intro he
          exact ht (by rw [he]; exact hb)
        · intro he
          exact ht (by rw [he]; exact hb)
      simp only [handleCompleteTask, List.map_cons, List.count_cons, beq_iff_eq] at ih ⊢
      by_cases ha : a.id = taskId
      · subst ha
        have k := key a rfl
        simp [ih, Ne.symm k.1, Ne.symm k.2]
      · simp [ha, ih]

/-- Witness for the amended C6 at a concrete task list. -/
theorem completeTask_unconditional_done_witness :
    { taskOther with status := TaskStatus.DONE } ∈ handleCompleteTask [taskOther] "t1" :=
  (completeTask_unconditional_done [taskOther] "t1").1 taskOther (by decide) rfl

/-- C7: at the failing input (a CLIENT identity with projectId null), the
part_000 variant renders the explicit incomplete-profile view, while the
src/App.tsx render hands the ClientPortal a portal view carrying no project:
the component then reads project.id (part_007 line 61), dereferencing the
absent value, and src/App.tsx has no incomplete-profile state at all. -/
theorem clientRender_missing_project_divergence :
    P0.renderApp p0NoProjectClient [] = P0.Render.incompleteProfile ∧
    renderApp (some noProjectClient) none [] = AppView.portal none ∧
    renderApp (some noProjectClient) none [projectA, projectB] = AppView.portal none := by
  decide

/-- A metric update never changes the project id of a stats record. -/
theorem applyMetric_projectId (st : ProjectStats) (ty : StatMetric) (v : Int)
    (d : Option String) : (applyMetric st ty v d).projectId = st.projectId := by
  cases ty <;> rfl

/-- Variant of the head-positive find? lemma with the predicate explicit, to
avoid higher-order unification picking the wrong predicate. -/
theorem find?_cons_pos (p : α → Bool) (a : α) (l : List α) (h : p a = true) :
    List.find? p (a :: l) = some a :=
  List.find?_cons_of_pos l h

/-- Variant of the head-negative find? lemma with the predicate explicit. -/
theorem find?_cons_neg (p : α → Bool) (a : α) (l : List α) (h : p a = false) :
    List.find? p (a :: l) = List.find? p l :=
  List.find?_cons_of_neg l (by simp [h])

/-- Variant of the head-positive filter lemma with the predicate explicit. -/
theorem filter_cons_pos (p : α → Bool) (a : α) (l : List α) (h : p a = true) :
    List.filter p (a :: l) = a :: List.filter p l :=
  List.filter_cons_of_pos h

/-- Variant of the head-negative filter lemma with the predicate explicit. -/
theorem filter_cons_neg (p : α → Bool) (a : α) (l : List α) (h : p a = false) :
    List.filter p (a :: l) = List.filter p l :=
  List.filter_cons_of_neg (by simp [h])

/-- In a revenue series with pairwise distinct months, the entries carrying a
month held by some member form exactly that singleton. -/
theorem filter_month_eq_single (l : List RevenueEntry) (lab : String) (r0 : RevenueEntry)
    (hnd : (l.map (fun r => r.month)).Nodup) (h0 : r0 ∈ l) (hm : r0.month = lab) :
    l.filter (fun r => r.month == lab) = [r0] := by
  induction l with
  | nil => cases h0
  | cons a t ih =>
    simp only [List.map_cons, List.nodup_cons, List.mem_map] at hnd
    rcases List.mem_cons.mp h0 with h0a | h0t
    · subst h0a
      rw [filter_cons_pos (fun r => r.month == lab) r0 t (by simpa using hm)]
      have ht : t.filter (fun r => r.month == lab) = [] := by
        rw [List.filter_eq_nil_iff]
        intro r hr hpr
        have hrm : r.month = lab := by simpa using hpr
        exact hnd.1 ⟨r, hr, hrm.trans hm.symm⟩
      rw [ht]
    · have hpa : (a.month == lab) = false := by
        rw [beq_eq_false_iff_ne]
        intro ha
        exact hnd.1 ⟨r0, h0t, hm.trans ha.symm⟩
      rw [filter_cons_neg (fun r => r.month == lab) a t hpa]
      exact ih hnd.2 h0t

/-- One revenue upsert with a concrete non-empty label leaves exactly one
entry for that label, carrying the new value, and keeps the months pairwise
distinct; non-emptiness is needed because the append branch replaces a falsy
label by Unknown. -/
theorem revUpsert_single (l : List RevenueEntry) (lab : String) (v : Int)
    (hlab : lab ≠ "") (hnd : (l.map (fun r => r.month)).Nodup) :
    (revUpsert l (some lab) v).filter (fun r => r.month == lab) =
      [{ month := lab, value := v }] ∧
    ((revUpsert l (some lab) v).map (fun r => r.month)).Nodup := by
  by_cases hf : (l.find? (fun r => some lab == some r.month)).isSome = true
  · rw [List.find?_isSome] at hf
    obtain ⟨r0, h0, hp0⟩ := hf
    have hm : r0.month = lab := Eq.symm (by simpa using hp0)
    have hres : revUpsert l (some lab) v =
        l.map (fun r => if some lab == some r.month then { r with value := v } else r) := by
      rw [revUpsert, if_pos]
      rw [List.find?_isSome]
      exact ⟨r0, h0, hp0⟩
    have hmonth : ∀ r : RevenueEntry,
        ((fun r => if some lab == some r.month then { r with value := v } else r) r).month =
          r.month := by
      intro r
      by_cases h : (some lab == some r.month) = true
      · simp [h]
      · simp [h]
    constructor
    · rw [hres, List.filter_map]
      have hcomp : ((fun r : RevenueEntry => r.month == lab) ∘
          (fun r => if some lab == some r.month then { r with value := v } else r)) =
          fun r : RevenueEntry => r.month == lab := by
        funext r
        exact congrArg (fun m : String => m == lab) (hmonth r)
      rw [hcomp, filter_month_eq_single l lab r0 hnd h0 hm]
      simp [hm]
    · rw [hres, List.map_map]
      have hcomp : ((fun r : RevenueEntry => r.month) ∘
          (fun r => if some lab == some r.month then { r with value := v } else r)) =
          fun r : RevenueEntry => r.month := by
        funext r
        exact hmonth r
      rw [hcomp]
      exact hnd
  · have hres : revUpsert l (some lab) v = l ++ [{ month := lab, value := v }] := by
      rw [revUpsert, if_neg hf]
      have hj : jsOrElse (some lab) ("Unknown") = lab := by
        simp only [jsOrElse]
        rw [if_neg (by simpa using hlab)]
      rw [hj]
    have hnotin : ∀ r ∈ l, r.month ≠ lab := by
      intro r hr he
      exact hf (List.find?_isSome.mpr ⟨r, hr, by simpa using he.symm⟩)
    constructor
    · rw [hres, List.filter_append]
      have h1 : l.filter (fun r => r.month == lab) = [] := by
        rw [List.filter_eq_nil_iff]
        intro r hr hpr
        exact hnotin r hr (by simpa using hpr)
      rw [h1]
      simp
    · rw [hres, List.map_append, List.nodup_append]
      refine ⟨hnd, by simp, ?_⟩
      intro m hml hms
      simp only [List.map_cons, List.map_nil, List.mem_singleton] at hms
      obtain ⟨r, hr, hrm⟩ := List.mem_map.mp hml
      exact hnotin r hr (by rw [hrm, hms])

/-- The record the stats list holds for a project after one local upsert: the
base record with the metric update applied, found by the same predicate the
handler uses. -/
theorem find?_upsertStatsList (projects : List Project) (stats : List ProjectStats)
    (pid : String) (ty : StatMetric) (v : Int) (d : Option String) :
    (upsertStatsList projects stats pid ty v d).find? (fun s => s.projectId == pid) =
      some (applyMetric (statsBase projects stats pid) ty v d) := by
  induction stats with
  | nil =>
    rw [upsertStatsList]
    simp only [findIndexJS]
    rw [List.nil_append,
      find?_cons_pos (fun s => s.projectId == pid)
        (applyMetric (freshStats projects pid) ty v d) []
        (by simp [applyMetric_projectId, freshStats])]
    rfl
  | cons a t ih =>
    cases pa : (a.projectId == pid) with
    | true =>
      rw [upsertStatsList]
      simp only [findIndexJS, pa, if_true, List.getD_cons_zero, List.set]
      rw [find?_cons_pos (fun s => s.projectId == pid) (applyMetric a ty v d) t
        (by simpa [applyMetric_projectId] using pa)]
      rw [statsBase, find?_cons_pos (fun s => s.projectId == pid) a t pa]
      rfl
    | false =>
      rw [upsertStatsList]
      simp only [findIndexJS, pa, Bool.false_eq_true, if_false]
      have hbase : statsBase projects (a :: t) pid = statsBase projects t pid := by
        rw [statsBase, find?_cons_neg (fun s => s.projectId == pid) a t pa]
        rfl
      cases hft : findIndexJS (fun s => s.projectId == pid) t with
      | none =>
        simp only [hft, Option.map_none']
        rw [List.cons_append, find?_cons_neg (fun s => s.projectId == pid) a _ pa, hbase]
        have h := ih
        rw [upsertStatsList, hft] at h
        exact h
      | some j =>
        simp only [hft, Option.map_some']
        rw [List.set, List.getD_cons_succ,
          find?_cons_neg (fun s => s.projectId == pid) a _ pa, hbase]
        have h := ih
        rw [upsertStatsList, hft] at h
        exact h

/-- The base record the handler starts from keeps the no-duplicate-months
hypothesis: it is either a record of the store or the fresh empty record. -/
theorem statsBase_revenue_nodup (projects : List Project) (stats : List ProjectStats)
    (pid : String)
    (hnd : ∀ s ∈ stats, s.projectId = pid → (s.revenue.map (fun r => r.month)).Nodup) :
    ((statsBase projects stats pid).revenue.map (fun r => r.month)).Nodup := by
  rw [statsBase]
  cases hf : stats.find? (fun s => s.projectId == pid) with
  | none => simp [freshStats]
  | some s =>
    rw [Option.getD_some]
    exact hnd s (List.mem_of_find?_eq_some hf) (by simpa using List.find?_some hf)

/-- C4 as amended: starting from a stats store whose records for the project
have pairwise distinct revenue months, two revenue updates for the same
project and the same non-empty month label (with different values) leave the
record the store holds for that project with exactly one revenue entry for
that label, carrying the value of the second call — the upsert-by-label
policy. The empty-string label is excluded: there the append branch falls
back to the month Unknown and the handler duplicates instead of upserting. -/
theorem updateStats_revenue_upsert (u : User) (projects : List Project)
    (stats : List ProjectStats) (pid lab : String) (v1 v2 : Int) (ok1 ok2 : Bool)
    (hrole : u.role = UserRole.OWNER ∨ u.role = UserRole.MANAGER)
    (hlab : lab ≠ "")
    (hne : v1 ≠ v2)
    (hnd : ∀ s ∈ stats, s.projectId = pid → (s.revenue.map (fun r => r.month)).Nodup) :
    ((handleUpdateStats (some u) projects
        (handleUpdateStats (some u) projects stats pid StatMetric.revenue v1 (some lab) ok1)
        pid StatMetric.revenue v2 (some lab) ok2).find? (fun s => s.projectId == pid)).map
      (fun st => st.revenue.filter (fun r => r.month == lab)) =
    some [{ month := lab, value := v2 }] := by
  have hguard : ∀ (st : List ProjectStats) (ty : StatMetric) (v : Int) (d : Option String)
      (ok : Bool), handleUpdateStats (some u) projects st pid ty v d ok =
        upsertStatsList projects st pid ty v d := by
    intro st ty v d ok
    rcases hrole with h | h <;> simp [handleUpdateStats, h]
  rw [hguard, hguard, find?_upsertStatsList, Option.map_some']
  have hbase1 : statsBase projects (upsertStatsList projects stats pid StatMetric.revenue v1
      (some lab)) pid =
      applyMetric (statsBase projects stats pid) StatMetric.revenue v1 (some lab) := by
    rw [statsBase, find?_upsertStatsList, Option.getD_some]
  rw [hbase1]
  have hnd0 := statsBase_revenue_nodup projects stats pid hnd
  have h1 := revUpsert_single (statsBase projects stats pid).revenue lab v1 hlab hnd0
  have h2 := revUpsert_single
    (revUpsert (statsBase projects stats pid).revenue (some lab) v1) lab v2 hlab h1.2
  simpa [applyMetric] using h2.1

/-- A member of a guarded filterMap block is the rendering of some candidate. -/
theorem mem_filterMap_guard {α : Type} (f : α → SearchResult) (c : α → Bool) (l : List α)
    (r : SearchResult)
    (hr : r ∈ l.filterMap (fun x => if c x then some (f x) else none)) :
    ∃ x ∈ l, r = f x := by
  obtain ⟨x, hx, hfx⟩ := List.mem_filterMap.mp hr
  refine ⟨x, hx, ?_⟩
  by_cases hc : c x = true
  · rw [if_pos hc] at hfx
    exact (Option.some.injEq _ _ ▸ hfx).symm
  · rw [if_neg hc] at hfx
    cases hfx

/-- Every result of the global search comes from one of the five blocks. -/
theorem mem_handleGlobalSearch (u : User) (projects : List Project) (tasks : List Task)
    (files : List AppFile) (messages : List ChatMessage) (events : List CalendarEvent)
    (query : String) (r : SearchResult)
    (hr : r ∈ handleGlobalSearch (some u) projects tasks files messages events query) :
    r ∈ projectResults u projects (toLowerStr query) ∨
    r ∈ taskResults u projects tasks (toLowerStr query) ∨
    r ∈ fileResults u projects files (toLowerStr query) ∨
    r ∈ messageResults u projects messages (toLowerStr query) ∨
    r ∈ eventResults u projects events (toLowerStr query) := by
  simp only [handleGlobalSearch] at hr
  by_cases h : (trimStr query == "") = true
  · rw [if_pos h] at hr
    cases hr
  · rw [if_neg h] at hr
    have hr2 := List.take_subset 10 _ hr
    simpa [List.mem_append, or_assoc] using hr2

/-- A project result demands an owner or manager caller and a visible project. -/
theorem mem_projectResults (u : User) (projects : List Project) (q : String) (r : SearchResult)
    (hr : r ∈ projectResults u projects q) :
    (u.role = UserRole.OWNER ∨ u.role = UserRole.MANAGER) ∧
    ∃ p ∈ visibleProjects (some u) projects, r.data = SearchData.project p := by
  rw [projectResults] at hr
  by_cases h : (u.role == UserRole.OWNER || u.role == UserRole.MANAGER) = true
  · rw [if_pos h] at hr
    obtain ⟨p, hp, hfp⟩ := mem_filterMap_guard _ _ _ _ hr
    exact ⟨by simpa using h, p, hp, by rw [hfp]⟩
  · rw [if_neg h] at hr
    cases hr

/-- A task result renders a member of the task candidate set. -/
theorem mem_taskResults (u : User) (projects : List Project) (tasks : List Task) (q : String)
    (r : SearchResult) (hr : r ∈ taskResults u projects tasks q) :
    ∃ t ∈ tasksToSearch u projects tasks, r.data = SearchData.task t := by
  obtain ⟨t, ht, hft⟩ := mem_filterMap_guard _ _ _ _ hr
  exact ⟨t, ht, by rw [hft]⟩

/-- A file result renders a member of the file candidate set. -/
theorem mem_fileResults (u : User) (projects : List Project) (files : List AppFile) (q : String)
    (r : SearchResult) (hr : r ∈ fileResults u projects files q) :
    ∃ f ∈ filesToSearch u projects files, r.data = SearchData.file f := by
  obtain ⟨f, hf, hff⟩ := mem_filterMap_guard _ _ _ _ hr
  exact ⟨f, hf, by rw [hff]⟩

/-- A message result renders a member of the message candidate set. -/
theorem mem_messageResults (u : User) (projects : List Project) (messages : List ChatMessage)
    (q : String) (r : SearchResult) (hr : r ∈ messageResults u projects messages q) :
    ∃ m ∈ msgsToSearch u projects messages, r.data = SearchData.message m := by
  obtain ⟨m, hm, hfm⟩ := mem_filterMap_guard _ _ _ _ hr
  exact ⟨m, hm, by rw [hfm]⟩

/-- An event result renders a member of the event candidate set. -/
theorem mem_eventResults (u : User) (projects : List Project) (events : List CalendarEvent)
    (q : String) (r : SearchResult) (hr : r ∈ eventResults u projects events q) :
    ∃ e ∈ eventsToSearch u projects events, r.data = SearchData.event e := by
  obtain ⟨e, he, hfe⟩ := mem_filterMap_guard _ _ _ _ hr
  exact ⟨e, he, by rw [hfe]⟩

/-- For a client, the task candidate set stays inside the assigned project. -/
theorem mem_tasksToSearch_client (u : User) (projects : List Project) (tasks : List Task)
    (t : Task) (hrole : u.role = UserRole.CLIENT) (ht : t ∈ tasksToSearch u projects tasks) :
    u.projectId = some t.projectId := by
  rw [tasksToSearch, if_pos (by simp [hrole])] at ht
  simpa using (List.mem_filter.mp ht).2

/-- For a client, the file candidate set stays inside the assigned project. -/
theorem mem_filesToSearch_client (u : User) (projects : List Project) (files : List AppFile)
    (f : AppFile) (hrole : u.role = UserRole.CLIENT) (hf : f ∈ filesToSearch u projects files) :
    u.projectId = some f.projectId := by
  rw [filesToSearch, if_pos (by simp [hrole])] at hf
  simpa using (List.mem_filter.mp hf).2

/-- For a client, the event candidate set stays inside the assigned project. -/
theorem mem_eventsToSearch_client (u : User) (projects : List Project)
    (events : List CalendarEvent) (e : CalendarEvent) (hrole : u.role = UserRole.CLIENT)
    (he : e ∈ eventsToSearch u projects events) :
    u.projectId = some e.projectId := by
  rw [eventsToSearch, if_pos (by simp [hrole])] at he
  simpa using (List.mem_filter.mp he).2

/-- For a client, the message candidate set stays inside the assigned project. -/
theorem mem_msgsToSearch_client (u : User) (projects : List Project)
    (messages : List ChatMessage) (m : ChatMessage) (hrole : u.role = UserRole.CLIENT)
    (hm : m ∈ msgsToSearch u projects messages) :
    u.projectId = some m.projectId := by
  rw [msgsToSearch, if_pos (by simp [hrole])] at hm
  by_cases hg : ((u.clientRole == some ClientRole.GUEST) && u.allowedChannels.isSome) = true
  · rw [if_pos hg] at hm
    simpa using (List.mem_filter.mp (List.mem_filter.mp hm).1).2
  · rw [if_neg hg] at hm
    simpa using (List.mem_filter.mp hm).2

/-- For a guest client with a defined allow-list, every message candidate lies
in an allowed room. -/
theorem mem_msgsToSearch_guest (u : User) (projects : List Project)
    (messages : List ChatMessage) (m : ChatMessage) (ac : List String)
    (hrole : u.role = UserRole.CLIENT) (hguest : u.clientRole = some ClientRole.GUEST)
    (hac : u.allowedChannels = some ac) (hm : m ∈ msgsToSearch u projects messages) :
    m.room ∈ ac := by
  rw [msgsToSearch, if_pos (by simp [hrole])] at hm
  rw [if_pos (by simp [hguest, hac])] at hm
  have h2 := (List.mem_filter.mp hm).2
  rw [hac] at h2
  simpa using h2

/-- C3: every global search result respects the visibility filtering of the
querying identity: project results appear only for OWNER or MANAGER callers
and refer to visible projects; a CLIENT only receives task, file, message and
event results of the assigned project; and a CLIENT with sub-role GUEST
(whose allow-list is defined) only receives message results from allowed
channels. -/
theorem globalSearch_respects_visibility (u : User) (projects : List Project)
    (tasks : List Task) (files : List AppFile) (messages : List ChatMessage)
    (events : List CalendarEvent) (query : String) (r : SearchResult)
    (hr : r ∈ handleGlobalSearch (some u) projects tasks files messages events query) :
    (∀ p, r.data = SearchData.project p →
      (u.role = UserRole.OWNER ∨ u.role = UserRole.MANAGER) ∧
        p ∈ visibleProjects (some u) projects) ∧
    (u.role = UserRole.CLIENT →
      (∀ t, r.data = SearchData.task t → u.projectId = some t.projectId) ∧
      (∀ f, r.data = SearchData.file f → u.projectId = some f.projectId) ∧
      (∀ m, r.data = SearchData.message m → u.projectId = some m.projectId) ∧
      (∀ e, r.data = SearchData.event e → u.projectId = some e.projectId)) ∧
    (∀ ac, u.role = UserRole.CLIENT → u.clientRole = some ClientRole.GUEST →
      u.allowedChannels = some ac →
      ∀ m, r.data = SearchData.message m → m.room ∈ ac) := by
  rcases mem_handleGlobalSearch u projects tasks files messages events query r hr with
    hb | hb | hb | hb | hb
  · obtain ⟨hroles, p, hp, hdata⟩ := mem_projectResults u projects _ r hb
    refine ⟨?_, ?_, ?_⟩
    · intro p' hp'
      rw [hdata] at hp'
      cases hp'
      exact ⟨hroles, hp⟩
    · intro hrole
      refine ⟨?_, ?_, ?_, ?_⟩ <;> intro x hx <;> rw [hdata] at hx <;> cases hx
    · intro ac hrole hguest hac m hm
      rw [hdata] at hm
      cases hm
  · obtain ⟨t, ht, hdata⟩ := mem_taskResults u projects tasks _ r hb
    refine ⟨?_, ?_, ?_⟩
    · intro p' hp'
      rw [hdata] at hp'
      cases hp'
    · intro hrole
      refine ⟨?_, ?_, ?_, ?_⟩ <;> intro x hx <;> rw [hdata] at hx <;> cases hx
      exact mem_tasksToSearch_client u projects tasks t hrole ht
    · intro ac hrole hguest hac m hm
      rw [hdata] at hm
      cases hm
  · obtain ⟨f, hf, hdata⟩ := mem_fileResults u projects files _ r hb
    refine ⟨?_, ?_, ?_⟩
    · intro p' hp'
      rw [hdata] at hp'
      cases hp'
    · intro hrole
      refine ⟨?_, ?_, ?_, ?_⟩ <;> intro x hx <;> rw [hdata] at hx <;> cases hx
      exact mem_filesToSearch_client u projects files f hrole hf
    · intro ac hrole hguest hac m hm
      rw [hdata] at hm
      cases hm
  · obtain ⟨m, hm, hdata⟩ := mem_messageResults u projects messages _ r hb
    refine ⟨?_, ?_, ?_⟩
    · intro p' hp'
      rw [hdata] at hp'
      cases hp'
    · intro hrole
      refine ⟨?_, ?_, ?_, ?_⟩ <;> intro x hx <;> rw [hdata] at hx <;> cases hx
      exact mem_msgsToSearch_client u projects messages m hrole hm
    · intro ac hrole hguest hac m' hm'
      rw [hdata] at hm'
      cases hm'
      exact mem_msgsToSearch_guest u projects messages m ac hrole hguest hac hm
  · obtain ⟨e, he, hdata⟩ := mem_eventResults u projects events _ r hb
    refine ⟨?_, ?_, ?_⟩
    · intro p' hp'
      rw [hdata] at hp'
      cases hp'
    · intro hrole
      refine ⟨?_, ?_, ?_, ?_⟩ <;> intro x hx <;> rw [hdata] at hx <;> cases hx
      exact mem_eventsToSearch_client u projects events e hrole he
    · intro ac hrole hguest hac m hm
      rw [hdata] at hm
      cases hm

/-- Witness for C3: the concrete task result the search returns for a guest
client lies in the project assigned to that client. -/
theorem globalSearch_respects_visibility_witness :
    guestUser.projectId = some taskOther.projectId :=
  ((globalSearch_respects_visibility guestUser [projectA] [taskOther] [] [] [] "mix"
      { id := "t1", type := SRType.TASK, title := "Mix the single",
        subtitle := "Status: TODO", data := SearchData.task taskOther, linkTo := some ("p1") }
      (by decide)).2.1 rfl).1 taskOther rfl

/-- Counterexample to C4 as stated: at the empty-string label the append
branch of the revenue upsert falls back to the month Unknown (the JS or-else),
so two updates append one Unknown entry each instead of upserting: starting
from a stats record with no duplicate labels, the store ends with zero revenue
entries carrying the label and two entries for Unknown. -/
theorem updateStats_empty_label_cex :
    ((handleUpdateStats (some ownerUser) [projectA]
        (handleUpdateStats (some ownerUser) [projectA] [statsP1] "p1" StatMetric.revenue 1
          (some ("")) true)
        "p1" StatMetric.revenue 2 (some ("")) true).find?
      (fun s => s.projectId == "p1")).map
      (fun st => st.revenue.filter (fun r => r.month == "")) = some [] ∧
    ((handleUpdateStats (some ownerUser) [projectA]
        (handleUpdateStats (some ownerUser) [projectA] [statsP1] "p1" StatMetric.revenue 1
          (some ("")) true)
        "p1" StatMetric.revenue 2 (some ("")) true).find?
      (fun s => s.projectId == "p1")).map (fun st => st.revenue) =
    some [{ month := "Unknown", value := 1 }, { month := "Unknown", value := 2 }] := by
  decide

/-- Witness for the amended C4: two revenue updates at a concrete store. -/
theorem updateStats_revenue_upsert_witness :
    ((handleUpdateStats (some ownerUser) []
        (handleUpdateStats (some ownerUser) [] [] "p1" StatMetric.revenue 1 (some ("Jan")) true)
        "p1" StatMetric.revenue 2 (some ("Jan")) true).find?
      (fun s => s.projectId == "p1")).map
      (fun st => st.revenue.filter (fun r => r.month == "Jan")) =
    some [{ month := "Jan", value := 2 }] :=
  updateStats_revenue_upsert ownerUser [] [] "p1" "Jan" 1 2 true true (Or.inl rfl)
    (by decide) (by decide) (by simp)

end Footstep
